import Mathlib

/-!
# Verification of the Einstein-Field-Equations tensor core

Shallow embedding of the repository's two tensor engines:

* the numeric engine (`src/backend/app/physics/tensors.py` driven by the
  FastAPI endpoints in `src/backend/app/main.py`), and
* the symbolic engine (`src/backend/app/services/calculation_service.py`).

Python floats are modelled as exact rationals (`ℚ`); the trigonometric
evaluations `np.sin(theta)` / `np.cos(theta)` are passed in as the rational
parameters `sinTheta` / `cosTheta` of the coordinate record.  Operations that
can raise in Python (float division by zero, `np.linalg.inv` on a singular
matrix, missing dictionary keys) are modelled in the `Except` monad.
-/

/- Batteries marks the `Rat` arithmetic operations `@[irreducible]`, which
blocks elaborator-side evaluation of concrete rational computations; the
kernel itself reduces them fine.  Restore semireducibility so that `decide`
can evaluate the embedded pipelines on concrete inputs. -/
set_option allowUnsafeReducibility true in
attribute [semireducible] Rat.mul Rat.add Rat.sub Rat.inv Rat.div Rat.blt

set_option maxRecDepth 4000

instance {ε α : Type} [DecidableEq ε] [DecidableEq α] :
    DecidableEq (Except ε α) := fun x y =>
  match x, y with
  | .ok a, .ok b =>
    if h : a = b then .isTrue (by rw [h])
    else .isFalse (fun hc => by cases hc; exact h rfl)
  | .error a, .error b =>
    if h : a = b then .isTrue (by rw [h])
    else .isFalse (fun hc => by cases hc; exact h rfl)
  | .ok _, .error _ => .isFalse (fun hc => by cases hc)
  | .error _, .ok _ => .isFalse (fun hc => by cases hc)

/-- Python exceptions that the embedded core can raise. -/
inductive PyErr : Type where
  /-- Python `ZeroDivisionError` (`float division by zero`). -/
  | zeroDivisionError : PyErr
  /-- `numpy.linalg.LinAlgError` (`Singular matrix`). -/
  | linAlgError : PyErr
  /-- Python `KeyError` for a missing dictionary key. -/
  | keyError : String → PyErr
deriving DecidableEq, Repr

/-- Python float division: raises `ZeroDivisionError` on a zero denominator. -/
def pydiv (a b : ℚ) : Except PyErr ℚ :=
  if b = 0 then .error .zeroDivisionError else .ok (a / b)

/-- `coords[k]` on a possibly missing entry: raises `KeyError(k)` if absent. -/
def getKey {α : Type} (o : Option α) (k : String) : Except PyErr α :=
  match o with
  | some v => .ok v
  | none => .error (.keyError k)

/-- The metric dictionary handed to the numeric engine
(`metric["g_tt"]`, `metric["g_rr"]`, `metric["g_theta_theta"]`,
`metric["g_phi_phi"]` in `tensors.py`). -/
structure NumMetric : Type where
  g_tt : ℚ
  g_rr : ℚ
  g_theta_theta : ℚ
  g_phi_phi : ℚ
deriving DecidableEq, Repr

/-- The `coords` dictionary of the numeric engine.  `mass`, `radius` and the
angle are always present at every call site; `metric_type`,
`angular_momentum` and `charge` are optional keys.  The angle `theta` enters
the source only through `np.sin(theta)` and `np.cos(theta)`, which are
embedded as the fields `sinTheta` and `cosTheta`. -/
structure NumCoords : Type where
  mass : ℚ
  radius : ℚ
  sinTheta : ℚ
  cosTheta : ℚ
  metric_type : Option String
  angular_momentum : Option ℚ
  charge : Option ℚ
deriving DecidableEq, Repr

/-- A 4×4 matrix of rationals (a numpy `(4,4)` array). -/
def Mat4 : Type := Fin 4 → Fin 4 → ℚ

/-- The all-zero matrix (`np.zeros((4,4))`). -/
def mat0 : Mat4 := fun _ _ => 0

/-- `m[a,b] = v` on a numpy array. -/
def setEntry (m : Mat4) (a b : Fin 4) (v : ℚ) : Mat4 :=
  fun i j => if i = a ∧ j = b then v else m i j

/-- The diagonal of the metric matrix built at the top of
`calculate_christoffel_symbols` and of `calculate_ricci_scalar`
(`g[0,0] = metric["g_tt"]`, …). -/
def metricDiag (m : NumMetric) : Fin 4 → ℚ := fun i =>
  if i = 0 then m.g_tt
  else if i = 1 then m.g_rr
  else if i = 2 then m.g_theta_theta
  else m.g_phi_phi

/-- `np.linalg.inv(g)` for the diagonal matrix `g` that the numeric engine
always builds (only `g[i,i]` is ever assigned).  `np.linalg.inv` raises
`LinAlgError` exactly when the matrix is singular, i.e. when the product of
the diagonal entries (the determinant) is zero; otherwise the genuine matrix
inverse of a diagonal matrix is the diagonal matrix of reciprocals
(certified by `npLinalgInvDiag_is_genuine_inverse` below). -/
def npLinalgInvDiag (d : Fin 4 → ℚ) : Except PyErr Mat4 :=
  if d 0 * d 1 * d 2 * d 3 = 0 then .error .linAlgError
  else .ok (fun i j => if i = j then (d i)⁻¹ else 0)

/-- Python loop `for sigma in range(4): acc += f(sigma)` starting at `0`. -/
def sumFin4 (f : Fin 4 → ℚ) : ℚ :=
  (List.finRange 4).foldl (fun a i => a + f i) 0

/-- Truth value of a Python boolean used as a number (`(alpha == 1)`). -/
def boole (p : Prop) [Decidable p] : ℚ := if p then 1 else 0

/-- The inner triple loop of `calculate_christoffel_symbols`
(`tensors.py` lines 87–102), verbatim: each σ-summand multiplies the
derivative entries by the boolean index matches `(alpha == i)` /
`(beta == i)` instead of using the index σ of the literal formula. -/
def christoffelCore (ginv dgdr dgdtheta dgdphi : Mat4) :
    Fin 4 → Fin 4 → Fin 4 → ℚ := fun mu alpha beta =>
  sumFin4 fun sigma =>
    (1/2) * ginv mu sigma *
      ( dgdr beta sigma * boole (alpha = 1)
      + dgdr alpha sigma * boole (beta = 1)
      - dgdr sigma alpha * boole (beta = 1)
      + dgdtheta beta sigma * boole (alpha = 2)
      + dgdtheta alpha sigma * boole (beta = 2)
      - dgdtheta sigma alpha * boole (beta = 2)
      + dgdphi beta sigma * boole (alpha = 3)
      + dgdphi alpha sigma * boole (beta = 3)
      - dgdphi sigma alpha * boole (beta = 3) )

/-- The literal tensor formula of the spec (§4.3) and of the docstring of
`calculate_christoffel_symbols`:
Γ^μ_{αβ} = ½ g^{μσ} (∂_α g_{βσ} + ∂_β g_{ασ} − ∂_σ g_{αβ}), summed over σ.
`D σ` is the matrix ∂_σ g (with ∂_t g = 0 for the stationary metrics in
scope).  This definition follows the spec words, for comparison with the
source's `christoffelCore`. -/
def christoffelLiteral (ginv : Mat4) (D : Fin 4 → Mat4) :
    Fin 4 → Fin 4 → Fin 4 → ℚ := fun mu alpha beta =>
  sumFin4 fun sigma =>
    (1/2) * ginv mu sigma *
      (D alpha beta sigma + D beta alpha sigma - D sigma alpha beta)

/-- Packages the three derivative matrices of the numeric engine into the
coordinate-indexed family used by the literal formula: ∂_t g = 0,
∂_r g, ∂_θ g, ∂_φ g. -/
def derivFamily (dgdr dgdtheta dgdphi : Mat4) : Fin 4 → Mat4 := fun sigma =>
  if sigma = 1 then dgdr
  else if sigma = 2 then dgdtheta
  else if sigma = 3 then dgdphi
  else mat0

/-- `get_metric_derivatives` (`tensors.py` lines 31–80): the closed-form
metric derivatives per family.  Any `metric_type` other than
`"schwarzschild"` and `"kerr"` falls through to the Reissner–Nordström
branch, which reads `coords["charge"]`. -/
def get_metric_derivatives (coords : NumCoords) (metric_type : String) :
    Except PyErr (Mat4 × Mat4 × Mat4) :=
  let r := coords.radius
  if metric_type = "schwarzschild" then do
    let e00 ← pydiv (-2 * coords.mass) (r^2)
    let t1 ← pydiv (2 * coords.mass) r
    let e11 ← pydiv (2 * coords.mass) (r^2 * (1 - t1)^2)
    let dg_dr := setEntry (setEntry (setEntry (setEntry mat0 0 0 e00) 1 1 e11)
      2 2 (2 * r)) 3 3 (2 * r * coords.sinTheta^2)
    let dg_dtheta := setEntry mat0 3 3
      (2 * r^2 * coords.sinTheta * coords.cosTheta)
    let dg_dphi := mat0
    .ok (dg_dr, dg_dtheta, dg_dphi)
  else if metric_type = "kerr" then do
    let a ← getKey coords.angular_momentum "angular_momentum"
    let rho2 := r^2 + a^2 * coords.cosTheta^2
    let delta := r^2 - 2 * coords.mass * r + a^2
    let e00 ← pydiv (-2 * coords.mass * (rho2 - 2 * r^2)) (rho2^2)
    let e11 ← pydiv (-2 * (r - coords.mass)) (delta^2)
    let dg_dr := setEntry (setEntry mat0 0 0 e00) 1 1 e11
    .ok (dg_dr, mat0, mat0)
  else do
    let q ← getKey coords.charge "charge"
    let q2 := q^2
    let u1 ← pydiv (-coords.mass) (r^2)
    let u2 ← pydiv q2 (r^3)
    let e00 := -2 * (u1 + u2)
    let v1 ← pydiv coords.mass (r^2)
    let v2 ← pydiv q2 (r^3)
    let w1 ← pydiv (2 * coords.mass) r
    let w2 ← pydiv q2 (r^2)
    let e11 ← pydiv (2 * (v1 - v2)) ((1 - w1 + w2)^2)
    let dg_dr := setEntry (setEntry (setEntry (setEntry mat0 0 0 e00) 1 1 e11)
      2 2 (2 * r)) 3 3 (2 * r * coords.sinTheta^2)
    let dg_dtheta := setEntry mat0 3 3
      (2 * r^2 * coords.sinTheta * coords.cosTheta)
    .ok (dg_dr, dg_dtheta, mat0)

/-- The numeric tolerance `1e-10` used by the sparsifying result encoder. -/
def tol : ℚ := 1 / 10^10

/-- The f-string key `f"Γ{mu}_{alpha}{beta}"` of the Christoffel dictionary. -/
def chKey (mu alpha beta : Fin 4) : String :=
  "Γ" ++ toString mu.val ++ "_" ++ toString alpha.val ++ toString beta.val

/-- The f-string key `f"R{mu}_{alpha}{beta}{gamma}"` of the Riemann
dictionary. -/
def rieKey (mu alpha beta gamma : Fin 4) : String :=
  "R" ++ toString mu.val ++ "_" ++ toString alpha.val ++ toString beta.val
    ++ toString gamma.val

/-- The f-string key `f"R_{i}{j}"` of the Ricci dictionary. -/
def ricKey (i j : Fin 4) : String :=
  "R_" ++ toString i.val ++ toString j.val

/-- `[int(i) for i in key.replace(x, "").replace("_", "")]`: the source
removes the marker characters and reads every remaining character as a
digit.  (On the well-formed keys the engine itself generates every remaining
character is a digit in `0..3`.) -/
def stripDigits (bad : List Char) (s : String) : List ℕ :=
  (s.toList.filter (fun c => !(bad.contains c))).map (fun c => c.toNat - 48)

/-- A parsed digit as a numpy index; digits outside `0..3` would raise
`IndexError` in the source and never occur on engine-generated keys. -/
def toFin4 (n : ℕ) : Option (Fin 4) :=
  if h : n < 4 then some ⟨n, h⟩ else none

/-- Key parsing done by `calculate_riemann_tensor` on Christoffel keys. -/
def parseChKey (s : String) : Option (Fin 4 × Fin 4 × Fin 4) :=
  match stripDigits ['Γ', '_'] s with
  | [a, b, c] =>
    match toFin4 a, toFin4 b, toFin4 c with
    | some x, some y, some z => some (x, y, z)
    | _, _, _ => none
  | _ => none

/-- Key parsing done by `calculate_ricci_tensor` on Riemann keys. -/
def parseRieKey (s : String) : Option (Fin 4 × Fin 4 × Fin 4 × Fin 4) :=
  match stripDigits ['R', '_'] s with
  | [a, b, c, d] =>
    match toFin4 a, toFin4 b, toFin4 c, toFin4 d with
    | some x, some y, some z, some w => some (x, y, z, w)
    | _, _, _, _ => none
  | _ => none

/-- Key parsing done by `calculate_ricci_scalar` on Ricci keys
(`key.replace("R_", "")`, equivalent on these keys to stripping the marker
characters). -/
def parseRicKey (s : String) : Option (Fin 4 × Fin 4) :=
  match stripDigits ['R', '_'] s with
  | [a, b] =>
    match toFin4 a, toFin4 b with
    | some x, some y => some (x, y)
    | _, _ => none
  | _ => none

/-- Dense rank-3 array (numpy `(4,4,4)`). -/
def Arr3 : Type := (Fin 4 × Fin 4 × Fin 4) → ℚ

/-- Dense rank-4 array (numpy `(4,4,4,4)`). -/
def Arr4 : Type := (Fin 4 × Fin 4 × Fin 4 × Fin 4) → ℚ

/-- Dense rank-2 array (numpy `(4,4)`). -/
def Arr2 : Type := (Fin 4 × Fin 4) → ℚ

/-- One step of rebuilding a dense array from a dictionary entry
(`array[indices...] = value` after parsing the key). -/
def applyEntryG {T : Type} [DecidableEq T] (parse : String → Option T)
    (B : T → ℚ) (kv : String × ℚ) : T → ℚ :=
  match parse kv.1 with
  | some t => fun u => if u = t then kv.2 else B u
  | none => B

/-- Dictionary-to-array reconstruction performed at the top of
`calculate_riemann_tensor`. -/
def parseChDict (l : List (String × ℚ)) : Arr3 :=
  l.foldl (applyEntryG parseChKey) (fun _ => 0)

/-- Dictionary-to-array reconstruction performed at the top of
`calculate_ricci_tensor`. -/
def parseRieDict (l : List (String × ℚ)) : Arr4 :=
  l.foldl (applyEntryG parseRieKey) (fun _ => 0)

/-- Dictionary-to-array reconstruction performed by
`calculate_ricci_scalar`. -/
def parseRicDict (l : List (String × ℚ)) : Arr2 :=
  l.foldl (applyEntryG parseRicKey) (fun _ => 0)

/-- All index triples in the iteration order of the Python triple loop. -/
def idx3 : List (Fin 4 × Fin 4 × Fin 4) :=
  (List.finRange 4).flatMap fun a => (List.finRange 4).flatMap fun b =>
    (List.finRange 4).map fun c => (a, b, c)

/-- All index quadruples in the iteration order of the Python loop. -/
def idx4 : List (Fin 4 × Fin 4 × Fin 4 × Fin 4) :=
  (List.finRange 4).flatMap fun a => (List.finRange 4).flatMap fun b =>
    (List.finRange 4).flatMap fun c => (List.finRange 4).map fun d => (a, b, c, d)

/-- All index pairs in the iteration order of the Python loop. -/
def idx2 : List (Fin 4 × Fin 4) :=
  (List.finRange 4).flatMap fun a => (List.finRange 4).map fun b => (a, b)

/-- The sparsifying result encoder shared by the three tensor dictionaries:
iterate over every index tuple in loop order and keep a component only when
`abs(value) > 1e-10`. -/
def buildDictG {T : Type} (key : T → String) (ts : List T) (val : T → ℚ) :
    List (String × ℚ) :=
  ts.filterMap fun t => if tol < |val t| then some (key t, val t) else none

/-- The sparsifying result encoder of `calculate_christoffel_symbols`
(lines 104–112). -/
def christoffelDict (g : Fin 4 → Fin 4 → Fin 4 → ℚ) : List (String × ℚ) :=
  buildDictG (fun t => chKey t.1 t.2.1 t.2.2) idx3 (fun t => g t.1 t.2.1 t.2.2)

/-- The sparsifying result encoder of `calculate_riemann_tensor`
(lines 154–163). -/
def riemannDictOfArr (A : Arr4) : List (String × ℚ) :=
  buildDictG (fun t => rieKey t.1 t.2.1 t.2.2.1 t.2.2.2) idx4 A

/-- The sparsifying result encoder of `calculate_ricci_tensor`
(lines 185–192). -/
def ricciDictOfArr (A : Arr2) : List (String × ℚ) :=
  buildDictG (fun t => ricKey t.1 t.2) idx2 A

/-- Writes `A[t] = v` on a dense rank-4 array. -/
def set4 (A : Arr4) (t : Fin 4 × Fin 4 × Fin 4 × Fin 4) (v : ℚ) : Arr4 :=
  fun u => if u = t then v else A u

/-- `calculate_christoffel_symbols` of `tensors.py` (lines 4–112): build the
diagonal metric matrix, invert it, dispatch on
`coords.get("metric_type", "schwarzschild")` for the analytic derivatives,
run the index-matched σ-loop, and sparsify into the keyed dictionary. -/
def calculate_christoffel_symbols (metric : NumMetric) (coords : NumCoords) :
    Except PyErr (List (String × ℚ)) := do
  let ginv ← npLinalgInvDiag (metricDiag metric)
  let mt := coords.metric_type.getD "schwarzschild"
  let ds ← get_metric_derivatives coords mt
  .ok (christoffelDict (christoffelCore ginv ds.1 ds.2.1 ds.2.2))

/-- `calculate_riemann_tensor` of `tensors.py` (lines 114–163): the
Christoffel dictionary is parsed back into an array that is never used
afterwards (the source's loop variable `gamma` shadows it); the Riemann
array is then populated with a handful of hardcoded closed-form components
per metric family (the source comment calls this "a simplified calculation
focusing on key components"), and sparsified.  Note the family dispatch here
uses `coords.get("metric_type")` with no default. -/
def calculate_riemann_tensor (_metric : NumMetric)
    (christoffel : List (String × ℚ)) (coords : NumCoords) :
    Except PyErr (List (String × ℚ)) := do
  let _gamma := parseChDict christoffel
  let r := coords.radius
  let m := coords.mass
  if coords.metric_type = some "schwarzschild" then do
    let t1 ← pydiv (2*m) r
    let v1 ← pydiv (2*m) (r^3 * (1 - t1))
    let t2 ← pydiv (2*m) r
    let v2 ← pydiv (-2*m) (r^3 * (1 - t2))
    let v3 ← pydiv (2*m) r
    let v4 ← pydiv (-2*m) r
    let A := set4 (set4 (set4 (set4 (fun _ => 0) (0,1,0,1) v1) (0,1,1,0) v2)
      (2,3,2,3) v3) (2,3,3,2) v4
    .ok (riemannDictOfArr A)
  else if coords.metric_type = some "kerr" then do
    let a ← getKey coords.angular_momentum "angular_momentum"
    let rho2 := r^2 + a^2 * coords.cosTheta^2
    let v1 ← pydiv (m * (r^2 - a^2 * coords.cosTheta^2)) (rho2^3)
    let v2 ← pydiv (m * r) (rho2^2)
    let A := set4 (set4 (fun _ => 0) (0,1,0,1) v1) (0,2,0,2) (-v2)
    .ok (riemannDictOfArr A)
  else do
    let q ← getKey coords.charge "charge"
    let v1 ← pydiv (2*m*r - q^2) (r^4)
    let v2 ← pydiv (2*m*r - q^2) (r^4)
    let A := set4 (set4 (fun _ => 0) (0,1,0,1) v1) (2,3,2,3) v2
    .ok (riemannDictOfArr A)

/-- `calculate_ricci_tensor` of `tensors.py` (lines 165–192): rebuild the
dense Riemann array from the dictionary, contract the first and third index,
and sparsify. -/
def calculate_ricci_tensor (riemann : List (String × ℚ)) :
    List (String × ℚ) :=
  let A := parseRieDict riemann
  ricciDictOfArr (fun p => sumFin4 fun k => A (k, p.1, k, p.2))

/-- `calculate_ricci_scalar` of `tensors.py` (lines 194–222): rebuild and
invert the diagonal metric, rebuild the Ricci array from the dictionary, and
contract. -/
def calculate_ricci_scalar (ricci : List (String × ℚ)) (metric : NumMetric) :
    Except PyErr ℚ := do
  let ginv ← npLinalgInvDiag (metricDiag metric)
  let ric := parseRicDict ricci
  .ok (sumFin4 fun i => sumFin4 fun j => ginv i j * ric (i, j))

/-- The tensor payload assembled by each endpoint of `main.py` (the
response's `metric_components`, `christoffel_symbols`, `riemann_tensor`,
`ricci_tensor` and `ricci_scalar` fields; the real-valued horizon fields are
modelled separately below). -/
structure PipelineOut : Type where
  metric : NumMetric
  christoffel : List (String × ℚ)
  riemann : List (String × ℚ)
  ricci : List (String × ℚ)
  ricciScalar : ℚ
deriving DecidableEq, Repr

/-- The metric construction and tensor pipeline of the Schwarzschild
endpoint (`main.py` lines 102–130). -/
def schwPipeline (m r sTheta cTheta : ℚ) : Except PyErr PipelineOut := do
  let rs := 2 * m
  let t1 ← pydiv rs r
  let g_tt := -(1 - t1)
  let t2 ← pydiv rs r
  let g_rr ← pydiv 1 (1 - t2)
  let metric : NumMetric := ⟨g_tt, g_rr, r * r, r * r * sTheta * sTheta⟩
  let coords : NumCoords :=
    ⟨m, r, sTheta, cTheta, some "schwarzschild", none, none⟩
  let ch ← calculate_christoffel_symbols metric coords
  let rie ← calculate_riemann_tensor metric ch coords
  let ric := calculate_ricci_tensor rie
  let rsc ← calculate_ricci_scalar ric metric
  .ok ⟨metric, ch, rie, ric, rsc⟩

/-- The metric construction and tensor pipeline of the Kerr endpoint
(`main.py` lines 176–211), after the naked-singularity guard. -/
def kerrPipeline (m r sTheta cTheta a : ℚ) : Except PyErr PipelineOut := do
  let rs := 2 * m
  let rho2 := r * r + a * a * cTheta * cTheta
  let delta := r * r - rs * r + a * a
  let t1 ← pydiv (rs * r) rho2
  let g_tt := -(1 - t1)
  let g_rr ← pydiv rho2 delta
  let t2 ← pydiv (rs * r * a * a * sTheta * sTheta) rho2
  let g_phph := (r * r + a * a + t2) * sTheta * sTheta
  let metric : NumMetric := ⟨g_tt, g_rr, rho2, g_phph⟩
  let coords : NumCoords :=
    ⟨m, r, sTheta, cTheta, some "kerr", some a, none⟩
  let ch ← calculate_christoffel_symbols metric coords
  let rie ← calculate_riemann_tensor metric ch coords
  let ric := calculate_ricci_tensor rie
  let rsc ← calculate_ricci_scalar ric metric
  .ok ⟨metric, ch, rie, ric, rsc⟩

/-- The metric construction and tensor pipeline of the Reissner–Nordström
endpoint (`main.py` lines 259–296), after the naked-singularity guard. -/
def rnPipeline (m r sTheta cTheta q : ℚ) : Except PyErr PipelineOut := do
  let t1 ← pydiv (2 * m) r
  let t2 ← pydiv (q * q) (r * r)
  let f := 1 - t1 + t2
  let g_tt := -f
  let g_rr ← pydiv 1 f
  let metric : NumMetric := ⟨g_tt, g_rr, r * r, r * r * sTheta * sTheta⟩
  let coords : NumCoords :=
    ⟨m, r, sTheta, cTheta, some "reissner-nordstrom", none, some q⟩
  let ch ← calculate_christoffel_symbols metric coords
  let rie ← calculate_riemann_tensor metric ch coords
  let ric := calculate_ricci_tensor rie
  let rsc ← calculate_ricci_scalar ric metric
  .ok ⟨metric, ch, rie, ric, rsc⟩

/-- The error payloads an endpoint of `main.py` can return: the two inline
naked-singularity 400 responses, or the catch-all
`except Exception: return JSONResponse(status_code=500, ...)`. -/
inductive ApiError : Type where
  | nakedSingularityKerr : ApiError
  | nakedSingularityRN : ApiError
  | internal : PyErr → ApiError
deriving DecidableEq, Repr

/-- The HTTP status code attached to each error payload. -/
def ApiError.status : ApiError → ℕ
  | .nakedSingularityKerr => 400
  | .nakedSingularityRN => 400
  | .internal _ => 500

/-- `str(e)` for the embedded Python exceptions. -/
def pyMsg : PyErr → String
  | .zeroDivisionError => "float division by zero"
  | .linAlgError => "Singular matrix"
  | .keyError k => k

/-- The `error` string of each endpoint error response. -/
def ApiError.message : ApiError → String
  | .nakedSingularityKerr => "Angular momentum squared cannot exceed mass squared"
  | .nakedSingularityRN => "Charge squared cannot exceed mass squared (naked singularity)"
  | .internal e => pyMsg e

/-- The `/api/v1/calculate/schwarzschild` endpoint (`main.py` lines
79–144): no parameter guard; any exception is converted to a generic 500
response. -/
def calculate_schwarzschild_endpoint (m r sTheta cTheta : ℚ) :
    Except ApiError PipelineOut :=
  match schwPipeline m r sTheta cTheta with
  | .ok p => .ok p
  | .error e => .error (.internal e)

/-- The `/api/v1/calculate/kerr` endpoint (`main.py` lines 146–225): the
naked-singularity guard `a*a > M*M` answers 400 before any tensor work;
any exception afterwards becomes a generic 500 response. -/
def calculate_kerr_endpoint (m r sTheta cTheta a : ℚ) :
    Except ApiError PipelineOut :=
  if a * a > m * m then .error .nakedSingularityKerr
  else
    match kerrPipeline m r sTheta cTheta a with
    | .ok p => .ok p
    | .error e => .error (.internal e)

/-- The `/api/v1/calculate/reissner-nordstrom` endpoint (`main.py` lines
227–311): the naked-singularity guard `Q*Q > M*M` answers 400 before any
tensor work; any exception afterwards becomes a generic 500 response. -/
def calculate_reissner_nordstrom_endpoint (m r sTheta cTheta q : ℚ) :
    Except ApiError PipelineOut :=
  if q * q > m * m then .error .nakedSingularityRN
  else
    match rnPipeline m r sTheta cTheta q with
    | .ok p => .ok p
    | .error e => .error (.internal e)

/-- Schwarzschild event horizon returned by the endpoint
(`rs = 2 * input_data.mass`, `event_horizon=float(rs)`). -/
def schwEventHorizon (mass : ℚ) : ℚ := 2 * mass

/-- Kerr outer event horizon returned by the endpoint (`main.py` line 197):
`mass + np.sqrt(mass*mass - a*a)`. -/
noncomputable def kerrEventHorizon (mass a : ℝ) : ℝ :=
  mass + Real.sqrt (mass * mass - a * a)

/-- Reissner–Nordström horizons returned by the endpoint (`main.py` lines
276–282): `(outer, inner) = (M ± sqrt(M² − Q²))` when the discriminant is
nonnegative, else `(None, None)`. -/
noncomputable def rnHorizons (mass q : ℝ) : Option ℝ × Option ℝ :=
  if mass * mass - q * q ≥ 0 then
    (some (mass + Real.sqrt (mass * mass - q * q)),
     some (mass - Real.sqrt (mass * mass - q * q)))
  else (none, none)

/-! ## The symbolic engine (`calculation_service.py`)

Sympy expressions are embedded as a formal expression tree: `sp.diff` and
`sp.sqrt` become formal nodes (`deriv`, `sqrt`).  The claims settled against
this engine concern its control flow (what is validated and what is
computed and returned), not the values of the symbolic expressions, so no
simplification is modelled. -/

/-- A formal sympy expression. -/
inductive SymExpr : Type where
  | sym : String → SymExpr
  | const : ℚ → SymExpr
  | neg : SymExpr → SymExpr
  | add : SymExpr → SymExpr → SymExpr
  | sub : SymExpr → SymExpr → SymExpr
  | mul : SymExpr → SymExpr → SymExpr
  | div : SymExpr → SymExpr → SymExpr
  | pow : SymExpr → ℤ → SymExpr
  | sin : SymExpr → SymExpr
  | cos : SymExpr → SymExpr
  | sqrt : SymExpr → SymExpr
  | deriv : SymExpr → String → SymExpr
deriving DecidableEq

/-- The 3×3 minor of a symbolic 4×4 matrix obtained by deleting row `i` and
column `j`. -/
def symMinor (g : Fin 4 → Fin 4 → SymExpr) (i j : Fin 4) :
    Fin 3 → Fin 3 → SymExpr := fun a b => g (i.succAbove a) (j.succAbove b)

/-- Formal 3×3 determinant (first-row cofactor expansion). -/
def det3s (m : Fin 3 → Fin 3 → SymExpr) : SymExpr :=
  .add
    (.sub
      (.mul (m 0 0) (.sub (.mul (m 1 1) (m 2 2)) (.mul (m 1 2) (m 2 1))))
      (.mul (m 0 1) (.sub (.mul (m 1 0) (m 2 2)) (.mul (m 1 2) (m 2 0)))))
    (.mul (m 0 2) (.sub (.mul (m 1 0) (m 2 1)) (.mul (m 1 1) (m 2 0))))

/-- Formal 4×4 determinant (first-row cofactor expansion). -/
def det4s (g : Fin 4 → Fin 4 → SymExpr) : SymExpr :=
  .sub
    (.add
      (.sub
        (.mul (g 0 0) (det3s (symMinor g 0 0)))
        (.mul (g 0 1) (det3s (symMinor g 0 1))))
      (.mul (g 0 2) (det3s (symMinor g 0 2))))
    (.mul (g 0 3) (det3s (symMinor g 0 3)))

/-- Cofactor sign `(-1)^(i+j)`. -/
def cofSign (i j : Fin 4) : ℚ := if (i.val + j.val) % 2 = 0 then 1 else -1

/-- `metric.inv()` on a symbolic 4×4 matrix: the genuine matrix inverse in
its adjugate/determinant closed form (sympy computes the same inverse, in
whatever simplified shape its algorithm produces; the claims settled here
never inspect these expression values). -/
def symInv (g : Fin 4 → Fin 4 → SymExpr) : Fin 4 → Fin 4 → SymExpr :=
  fun i j => .div (.mul (.const (cofSign i j)) (det3s (symMinor g j i))) (det4s g)

/-- `sp.diff(e, x)` as a formal derivative node. -/
def spDiff (e : SymExpr) (x : String) : SymExpr := .deriv e x

/-- `calculate_christoffel_symbols` of `calculation_service.py` (lines
367–396): the literal formula
`Γ^l_ij = ½ g^lk (∂_i g_jk + ∂_j g_ik − ∂_k g_ij)` accumulated over `k`. -/
def symChristoffel (metric : Fin 4 → Fin 4 → SymExpr)
    (coordName : Fin 4 → String) : Fin 4 → Fin 4 → Fin 4 → SymExpr :=
  let ginv := symInv metric
  fun l i j =>
    (List.finRange 4).foldl
      (fun acc k =>
        .add acc
          (.mul (.mul (.const (1/2)) (ginv l k))
            (.sub
              (.add (spDiff (metric j k) (coordName i))
                    (spDiff (metric i k) (coordName j)))
              (spDiff (metric i j) (coordName k)))))
      (.const 0)

/-- `calculate_ricci_tensor` of `calculation_service.py` (lines 398–447):
recomputes the Christoffel symbols, accumulates the four Ricci terms, and
contracts with the inverse metric for the scalar. -/
def symRicci (metric : Fin 4 → Fin 4 → SymExpr) (coordName : Fin 4 → String) :
    (Fin 4 → Fin 4 → SymExpr) × SymExpr :=
  let ch := symChristoffel metric coordName
  let ricci : Fin 4 → Fin 4 → SymExpr := fun mu nu =>
    let term1 := (List.finRange 4).foldl
      (fun acc lam => .add acc (spDiff (ch lam mu nu) (coordName lam)))
      (.const 0)
    let term2 := (List.finRange 4).foldl
      (fun acc lam => .add acc (spDiff (ch lam mu lam) (coordName nu)))
      (.const 0)
    let term3 := (List.finRange 4).foldl
      (fun acc lam => (List.finRange 4).foldl
        (fun acc2 sig => .add acc2 (.mul (ch lam mu nu) (ch sig lam sig)))
        acc)
      (.const 0)
    let term4 := (List.finRange 4).foldl
      (fun acc lam => (List.finRange 4).foldl
        (fun acc2 sig => .add acc2 (.mul (ch lam mu sig) (ch sig nu lam)))
        acc)
      (.const 0)
    .sub (.add (.sub term1 term2) term3) term4
  let ginv := symInv metric
  let scalar := (List.finRange 4).foldl
    (fun acc mu => (List.finRange 4).foldl
      (fun acc2 nu => .add acc2 (.mul (ginv mu nu) (ricci mu nu)))
      acc)
    (.const 0)
  (ricci, scalar)

/-- `(List.finRange 4).map f`: a 4-element Python list. -/
def listOf4 {α : Type} (f : Fin 4 → α) : List α := (List.finRange 4).map f

/-- The JSON payload returned by the symbolic `calculate_kerr` (the source
`str()`-serializes every expression; the expression structure is kept
here). -/
structure KerrSymResult : Type where
  metric : List (List SymExpr)
  christoffel_symbols : List (List (List SymExpr))
  ricci_tensor : List (List SymExpr)
  ricci_scalar : SymExpr
  outer_horizon : SymExpr
  inner_horizon : SymExpr
  ergosphere : SymExpr
  is_vacuum_solution : Bool

/-- `calculate_kerr` of `calculation_service.py` (lines 239–302), the
symbolic engine's Kerr entry point.  It extracts `mass` and
`angular_momentum` from the inputs (with defaults `1.0` and `0.5`) but never
uses the numeric values — `a` is a fresh symbol — and performs **no**
naked-singularity validation: the tensors are computed and returned
unconditionally for every input. -/
def service_calculate_kerr (mass angular_momentum : Option ℚ) :
    KerrSymResult :=
  let _mass := mass.getD 1
  let _angular_momentum := angular_momentum.getD (1/2)
  let a : SymExpr := .sym "a"
  let r : SymExpr := .sym "r"
  let theta : SymExpr := .sym "theta"
  let c : SymExpr := .sym "c"
  let gg : SymExpr := .sym "G"
  let mm : SymExpr := .sym "M"
  let rho2 : SymExpr := .add (.pow r 2) (.pow (.mul a (.cos theta)) 2)
  let delta : SymExpr :=
    .add (.sub (.pow r 2)
      (.div (.mul (.mul (.mul (.const 2) gg) mm) r) (.pow c 2))) (.pow a 2)
  let g_tt : SymExpr := .neg (.sub (.const 1)
    (.div (.mul (.mul (.mul (.const 2) gg) mm) r) (.mul (.pow c 2) rho2)))
  let g_rr : SymExpr := .div rho2 delta
  let g_theta_theta : SymExpr := rho2
  let g_phi_phi : SymExpr :=
    .mul
      (.add (.add (.pow r 2) (.pow a 2))
        (.div
          (.mul (.mul (.mul (.mul (.mul (.const 2) gg) mm) r) (.pow a 2))
            (.pow (.sin theta) 2))
          (.mul (.pow c 2) rho2)))
      (.pow (.sin theta) 2)
  let g_t_phi : SymExpr :=
    .neg (.div
      (.mul (.mul (.mul (.mul (.mul (.const 2) gg) mm) r) a)
        (.pow (.sin theta) 2))
      (.mul c rho2))
  let metric : Fin 4 → Fin 4 → SymExpr := fun i j =>
    if (i, j) = (0, 0) then g_tt
    else if (i, j) = (1, 1) then g_rr
    else if (i, j) = (2, 2) then g_theta_theta
    else if (i, j) = (3, 3) then g_phi_phi
    else if (i, j) = (0, 3) then g_t_phi
    else if (i, j) = (3, 0) then g_t_phi
    else .const 0
  let coordName : Fin 4 → String := fun i =>
    if i = 0 then "t" else if i = 1 then "r"
    else if i = 2 then "theta" else "phi"
  let christoffel := symChristoffel metric coordName
  let ricci := symRicci metric coordName
  let gmOverC2 : SymExpr := .div (.mul gg mm) (.pow c 2)
  let r_plus : SymExpr :=
    .add gmOverC2 (.sqrt (.sub (.pow gmOverC2 2) (.pow a 2)))
  let r_minus : SymExpr :=
    .sub gmOverC2 (.sqrt (.sub (.pow gmOverC2 2) (.pow a 2)))
  let r_ergo : SymExpr :=
    .add gmOverC2
      (.sqrt (.sub (.pow gmOverC2 2) (.mul (.pow a 2) (.pow (.cos theta) 2))))
  { metric := listOf4 fun i => listOf4 fun j => metric i j
    christoffel_symbols :=
      listOf4 fun i => listOf4 fun j => listOf4 fun k => christoffel i j k
    ricci_tensor := listOf4 fun i => listOf4 fun j => ricci.1 i j
    ricci_scalar := ricci.2
    outer_horizon := r_plus
    inner_horizon := r_minus
    ergosphere := r_ergo
    is_vacuum_solution := true }

/-- Runs the Schwarzschild endpoint's metric construction and the numeric
engine's inverse-and-derivative steps at one evaluation point, then returns
the triple (source Γ²₁₂, source Γ²₂₁, literal-formula Γ²₂₁): the first two
from the source's `christoffelCore` loop, the third from the spec's literal
tensor formula over the same inverse metric and derivative matrices. -/
def schwChristoffelComparison (m r sTheta cTheta : ℚ) :
    Except PyErr (ℚ × ℚ × ℚ) := do
  let rs := 2 * m
  let t1 ← pydiv rs r
  let g_tt := -(1 - t1)
  let t2 ← pydiv rs r
  let g_rr ← pydiv 1 (1 - t2)
  let metric : NumMetric := ⟨g_tt, g_rr, r * r, r * r * sTheta * sTheta⟩
  let coords : NumCoords :=
    ⟨m, r, sTheta, cTheta, some "schwarzschild", none, none⟩
  let ginv ← npLinalgInvDiag (metricDiag metric)
  let ds ← get_metric_derivatives coords "schwarzschild"
  let code := christoffelCore ginv ds.1 ds.2.1 ds.2.2
  let lit := christoffelLiteral ginv (derivFamily ds.1 ds.2.1 ds.2.2)
  .ok (code 2 1 2, code 2 2 1, lit 2 2 1)

/-! ## Round-trip properties of the string-keyed sparse encoding -/

/-- The determinant of the diagonal metric matrix is the product of its
diagonal entries, so `npLinalgInvDiag` raises exactly when `np.linalg.inv`
does. -/
theorem det_diagonal_eq_prod (d : Fin 4 → ℚ) :
    (Matrix.diagonal d).det = d 0 * d 1 * d 2 * d 3 := by
  rw [Matrix.det_diagonal, Fin.prod_univ_four]

/-- When `npLinalgInvDiag` succeeds, its value is the genuine matrix inverse
of the diagonal metric matrix (not merely a component-wise heuristic): the
product with the original matrix is the identity. -/
theorem npLinalgInvDiag_is_genuine_inverse (d : Fin 4 → ℚ)
    (h : d 0 * d 1 * d 2 * d 3 ≠ 0) :
    Matrix.diagonal d * Matrix.diagonal (fun i => (d i)⁻¹) = 1 := by
  have hi : ∀ i : Fin 4, d i ≠ 0 := by
    rw [mul_ne_zero_iff, mul_ne_zero_iff, mul_ne_zero_iff] at h
    intro i
    fin_cases i
    · exact h.1.1.1
    · exact h.1.1.2
    · exact h.1.2
    · exact h.2
  rw [Matrix.diagonal_mul_diagonal]
  have : (fun i => d i * (d i)⁻¹) = fun _ : Fin 4 => (1 : ℚ) := by
    funext i
    exact mul_inv_cancel₀ (hi i)
  rw [this, Matrix.diagonal_one]


/-- Each generated key parses back to exactly the index triple it encodes. -/
theorem parseChKey_roundtrip :
    ∀ t : Fin 4 × Fin 4 × Fin 4, parseChKey (chKey t.1 t.2.1 t.2.2) = some t := by
  decide

/-- Each generated Riemann key parses back to exactly its index quadruple. -/
theorem parseRieKey_roundtrip :
    ∀ t : Fin 4 × Fin 4 × Fin 4 × Fin 4,
      parseRieKey (rieKey t.1 t.2.1 t.2.2.1 t.2.2.2) = some t := by
  decide

/-- Each generated Ricci key parses back to exactly its index pair. -/
theorem parseRicKey_roundtrip :
    ∀ t : Fin 4 × Fin 4, parseRicKey (ricKey t.1 t.2) = some t := by
  decide

/-- The loop of the encoder visits every index triple. -/
theorem idx3_complete : ∀ t : Fin 4 × Fin 4 × Fin 4, t ∈ idx3 := by decide

/-- The loop of the encoder visits every index quadruple. -/
theorem idx4_complete : ∀ t : Fin 4 × Fin 4 × Fin 4 × Fin 4, t ∈ idx4 := by
  decide

/-- Every value stored by the sparsifying encoder exceeds the tolerance. -/
theorem buildDictG_all_big {T : Type} (key : T → String) (ts : List T)
    (val : T → ℚ) :
    (buildDictG key ts val).all (fun kv => decide (tol < |kv.2|)) = true := by
  rw [List.all_eq_true]
  intro kv hkv
  simp only [buildDictG, List.mem_filterMap] at hkv
  obtain ⟨t, -, ht⟩ := hkv
  by_cases h : tol < |val t|
  · rw [if_pos h] at ht
    cases ht
    exact decide_eq_true h
  · rw [if_neg h] at ht
    cases ht

/-- Folding the parse-and-assign step over an encoded dictionary recovers,
at each index tuple, the encoded value when it was retained and the
accumulator's value otherwise. -/
theorem parse_foldl_generic {T : Type} [DecidableEq T]
    (parse : String → Option T) (key : T → String)
    (hpk : ∀ t, parse (key t) = some t)
    (val : T → ℚ) (ts : List T) (A : T → ℚ) (t0 : T) :
    (buildDictG key ts val).foldl (applyEntryG parse) A t0
      = if t0 ∈ ts ∧ tol < |val t0| then val t0 else A t0 := by
  induction ts generalizing A with
  | nil => simp [buildDictG]
  | cons t ts ih =>
    by_cases h : tol < |val t|
    · have hbuild : buildDictG key (t :: ts) val
          = (key t, val t) :: buildDictG key ts val := by
        simp [buildDictG, List.filterMap_cons, h]
      have hstep : applyEntryG parse A (key t, val t)
          = fun u => if u = t then val t else A u := by
        simp [applyEntryG, hpk]
      rw [hbuild, List.foldl_cons, hstep, ih]
      by_cases ht0 : t0 = t
      · subst ht0
        simp [List.mem_cons, h]
      · simp [List.mem_cons, ht0]
    · have hbuild : buildDictG key (t :: ts) val = buildDictG key ts val := by
        simp [buildDictG, List.filterMap_cons, h]
      rw [hbuild, ih]
      by_cases ht0 : t0 = t
      · subst ht0
        simp [List.mem_cons, h]
      · simp [List.mem_cons, ht0]

/-! ## Helper lemmas for the dispatch and error-structure claims -/

/-- An unrecognized `metric_type` reaches the Reissner–Nordström fallthrough
branch of `get_metric_derivatives`: with no `"charge"` key present the
lookup raises `KeyError("charge")`. -/
theorem gmd_unrecognized_no_charge (coords : NumCoords) (mt : String)
    (h1 : mt ≠ "schwarzschild") (h2 : mt ≠ "kerr")
    (hch : coords.charge = none) :
    get_metric_derivatives coords mt = .error (.keyError "charge") := by
  unfold get_metric_derivatives
  rw [if_neg h1, if_neg h2, hch]
  rfl

/-- Every unrecognized `metric_type` behaves exactly as the tag
`"reissner-nordstrom"` does: both reach the same `else` branch. -/
theorem gmd_unrecognized_eq_rn (coords : NumCoords) (mt : String)
    (h1 : mt ≠ "schwarzschild") (h2 : mt ≠ "kerr") :
    get_metric_derivatives coords mt
      = get_metric_derivatives coords "reissner-nordstrom" := by
  unfold get_metric_derivatives
  rw [if_neg h1, if_neg h2]
  rw [if_neg (by decide : ¬("reissner-nordstrom" = "schwarzschild")),
      if_neg (by decide : ¬("reissner-nordstrom" = "kerr"))]

/-! ## The claims -/

/-- **C9**: the string-keyed sparse encoding round-trips exactly — for every
dense Christoffel array and every dense Riemann array, the dictionaries
produced by the encoders of `calculate_christoffel_symbols` and
`calculate_riemann_tensor`, when parsed back by the key-parsing of
`calculate_riemann_tensor` resp. `calculate_ricci_tensor`, reconstruct
precisely the original dense array with every entry of magnitude at most
1e-10 replaced by zero; and the dictionaries never contain a value of
magnitude at most 1e-10. -/
theorem c9_sparse_roundtrip :
    ∀ (g : Fin 4 → Fin 4 → Fin 4 → ℚ) (A : Arr4),
      (parseChDict (christoffelDict g)
        = fun t => if tol < |g t.1 t.2.1 t.2.2| then g t.1 t.2.1 t.2.2 else 0)
      ∧ (parseRieDict (riemannDictOfArr A)
        = fun t => if tol < |A t| then A t else 0)
      ∧ (christoffelDict g).all (fun kv => decide (tol < |kv.2|)) = true
      ∧ (riemannDictOfArr A).all (fun kv => decide (tol < |kv.2|)) = true := by
  intro g A
  refine ⟨?_, ?_, buildDictG_all_big _ _ _, buildDictG_all_big _ _ _⟩
  · funext t0
    unfold parseChDict christoffelDict
    rw [parse_foldl_generic parseChKey _ parseChKey_roundtrip _ idx3 _ t0]
    simp [idx3_complete t0]
  · funext t0
    unfold parseRieDict riemannDictOfArr
    rw [parse_foldl_generic parseRieKey _ parseRieKey_roundtrip _ idx4 _ t0]
    simp [idx4_complete t0]

/-- **C10**: in the numeric engine, any `metric_type` tag other than
`"schwarzschild"` and `"kerr"` (including unrecognized tags) is routed to
the Reissner–Nordström derivative formulas, which require the `"charge"`
key; when `"charge"` is absent the computation fails with the missing-key
error `KeyError("charge")` (not an unknown-family error), and an absent
`"metric_type"` defaults to `"schwarzschild"`. -/
theorem c10_family_dispatch :
    (∀ (coords : NumCoords) (mt : String),
      mt ≠ "schwarzschild" → mt ≠ "kerr" →
      get_metric_derivatives coords mt
        = get_metric_derivatives coords "reissner-nordstrom")
    ∧ (∀ (metric : NumMetric) (coords : NumCoords) (mt : String),
        coords.metric_type = some mt →
        mt ≠ "schwarzschild" → mt ≠ "kerr" →
        coords.charge = none →
        metricDiag metric 0 * metricDiag metric 1 * metricDiag metric 2 *
          metricDiag metric 3 ≠ 0 →
        calculate_christoffel_symbols metric coords
          = .error (.keyError "charge"))
    ∧ (∀ (metric : NumMetric) (coords : NumCoords),
        coords.metric_type = none →
        calculate_christoffel_symbols metric coords
          = calculate_christoffel_symbols metric
              { coords with metric_type := some "schwarzschild" }) := by
  refine ⟨gmd_unrecognized_eq_rn, ?_, ?_⟩
  · intro metric coords mt hmt h1 h2 hch hprod
    unfold calculate_christoffel_symbols npLinalgInvDiag
    rw [if_neg hprod, hmt]
    show Except.bind (get_metric_derivatives coords mt) _ = _
    rw [gmd_unrecognized_no_charge coords mt h1 h2 hch]
    rfl
  · intro metric coords hmt
    unfold calculate_christoffel_symbols
    rw [hmt]
    rfl

/-- **C10 witness**: a coords dictionary with the unrecognized tag
`"minkowski"` and no `"charge"` key, against an invertible metric, fails
with `KeyError("charge")`. -/
theorem c10_witness :
    calculate_christoffel_symbols ⟨-1, 1, 1, 1⟩
      ⟨1, 10, 1, 0, some "minkowski", none, none⟩
      = .error (.keyError "charge") :=
  c10_family_dispatch.2.1 ⟨-1, 1, 1, 1⟩
    ⟨1, 10, 1, 0, some "minkowski", none, none⟩ "minkowski"
    rfl (by decide) (by decide) rfl (by decide)

/-- **C7**: the horizon calculators return the closed forms — Schwarzschild
event horizon `r_h = 2M` (2.0 at M=1); Kerr outer horizon
`r₊ = M + sqrt(M² − a²)` (1.0 at the extremal M=1, a=1); Reissner–Nordström
`r± = M ± sqrt(M² − Q²)` with `r₊ = r₋ = M` at the extremal `Q² = M²`
(both 1.0 at M=1, Q=1). -/
theorem c7_horizons :
    (∀ mass : ℚ, schwEventHorizon mass = 2 * mass)
    ∧ schwEventHorizon 1 = 2
    ∧ (∀ mass a : ℝ,
        kerrEventHorizon mass a = mass + Real.sqrt (mass * mass - a * a))
    ∧ kerrEventHorizon 1 1 = 1
    ∧ (∀ mass q : ℝ, mass * mass - q * q ≥ 0 →
        rnHorizons mass q
          = (some (mass + Real.sqrt (mass * mass - q * q)),
             some (mass - Real.sqrt (mass * mass - q * q))))
    ∧ rnHorizons 1 1 = (some 1, some 1) := by
  refine ⟨fun _ => rfl, rfl, fun _ _ => rfl, ?_, ?_, ?_⟩
  · unfold kerrEventHorizon
    rw [show (1 : ℝ) * 1 - 1 * 1 = 0 by norm_num, Real.sqrt_zero]
    norm_num
  · intro mass q h
    unfold rnHorizons
    rw [if_pos h]
  · unfold rnHorizons
    rw [if_pos (by norm_num : (1 : ℝ) * 1 - 1 * 1 ≥ 0),
        show (1 : ℝ) * 1 - 1 * 1 = 0 by norm_num, Real.sqrt_zero]
    norm_num

/-- **C7 witness**: the Reissner–Nordström clause applied at M=2, Q=0. -/
theorem c7_witness :
    rnHorizons 2 0
      = (some (2 + Real.sqrt (2 * 2 - 0 * 0)),
         some (2 - Real.sqrt (2 * 2 - 0 * 0))) :=
  c7_horizons.2.2.2.2.1 2 0 (by norm_num)

/-- **C8 (amended)**: the numeric endpoints return errors in exactly two
structured shapes — the distinct naked-singularity 400 payloads produced by
the explicit guards of the Kerr and Reissner–Nordström endpoints, and the
generic catch-all 500 payload wrapping the message of whatever exception the
pipeline raised.  No other error kind exists: in particular the
Schwarzschild endpoint can only fail generically. -/
theorem c8_error_structure :
    (∀ m r sTheta cTheta : ℚ, ∀ e : ApiError,
      calculate_schwarzschild_endpoint m r sTheta cTheta = .error e →
      ∃ pe, e = .internal pe ∧ e.status = 500)
    ∧ (∀ m r sTheta cTheta a : ℚ, ∀ e : ApiError,
        calculate_kerr_endpoint m r sTheta cTheta a = .error e →
        (e = .nakedSingularityKerr ∧ a * a > m * m ∧ e.status = 400)
        ∨ ∃ pe, e = .internal pe ∧ e.status = 500)
    ∧ (∀ m r sTheta cTheta q : ℚ, ∀ e : ApiError,
        calculate_reissner_nordstrom_endpoint m r sTheta cTheta q = .error e →
        (e = .nakedSingularityRN ∧ q * q > m * m ∧ e.status = 400)
        ∨ ∃ pe, e = .internal pe ∧ e.status = 500) := by
  refine ⟨?_, ?_, ?_⟩
  · intro m r sTheta cTheta e h
    unfold calculate_schwarzschild_endpoint at h
    cases hp : schwPipeline m r sTheta cTheta with
    | ok p => rw [hp] at h; simp at h
    | error pe =>
      rw [hp] at h
      injection h with h2
      subst h2
      exact ⟨pe, rfl, rfl⟩
  · intro m r sTheta cTheta a e h
    unfold calculate_kerr_endpoint at h
    by_cases hg : a * a > m * m
    · rw [if_pos hg] at h
      injection h with h2
      subst h2
      exact .inl ⟨rfl, hg, rfl⟩
    · rw [if_neg hg] at h
      cases hp : kerrPipeline m r sTheta cTheta a with
      | ok p => rw [hp] at h; simp at h
      | error pe =>
        rw [hp] at h
        injection h with h2
        subst h2
        exact .inr ⟨pe, rfl, rfl⟩
  · intro m r sTheta cTheta q e h
    unfold calculate_reissner_nordstrom_endpoint at h
    by_cases hg : q * q > m * m
    · rw [if_pos hg] at h
      injection h with h2
      subst h2
      exact .inl ⟨rfl, hg, rfl⟩
    · rw [if_neg hg] at h
      cases hp : rnPipeline m r sTheta cTheta q with
      | ok p => rw [hp] at h; simp at h
      | error pe =>
        rw [hp] at h
        injection h with h2
        subst h2
        exact .inr ⟨pe, rfl, rfl⟩

/-- **C8 witness**: applying the Schwarzschild clause at the concrete input
M=1, r=2 (metric singular at the horizon), sin θ = 1, cos θ = 0. -/
theorem c8_witness :
    ∃ pe, ApiError.internal PyErr.zeroDivisionError = .internal pe
      ∧ (ApiError.internal PyErr.zeroDivisionError).status = 500 :=
  c8_error_structure.1 1 2 1 0 (.internal .zeroDivisionError) (by decide)

/-- **C8 counterexample**: at M=1, r=2M (the coordinate singularity — a
`DomainError` situation in the spec's taxonomy) the Schwarzschild endpoint
returns the generic catch-all payload: status 500 with the raw
`ZeroDivisionError` message, not a structured result retaining a
`DomainError` kind.  The exception crosses the boundary converted to a
generic failure, contradicting the claim. -/
theorem c8_counterexample :
    calculate_schwarzschild_endpoint 1 2 1 0
        = .error (.internal .zeroDivisionError)
    ∧ (ApiError.internal PyErr.zeroDivisionError).status = 500
    ∧ (ApiError.internal PyErr.zeroDivisionError).message
        = "float division by zero" :=
  ⟨by decide, rfl, rfl⟩

/-- **C4 (amended)**: the numeric engine's endpoints reject `a² > M²`
(Kerr) and `Q² > M²` (Reissner–Nordström) with the distinct 400-class
naked-singularity error before any tensor computation — the guard answers
first regardless of every other input, so no tensor component is computed
or returned; the symbolic engine, by contrast, performs no such validation:
`calculate_kerr` of `calculation_service.py` computes and returns a full
4×4×4 symbolic Christoffel tensor (and the `is_vacuum_solution` payload)
for every input. -/
theorem c4_numeric_guard :
    (∀ m r sTheta cTheta a : ℚ, a * a > m * m →
      calculate_kerr_endpoint m r sTheta cTheta a
        = .error .nakedSingularityKerr)
    ∧ (∀ m r sTheta cTheta q : ℚ, q * q > m * m →
      calculate_reissner_nordstrom_endpoint m r sTheta cTheta q
        = .error .nakedSingularityRN)
    ∧ ApiError.nakedSingularityKerr.status = 400
    ∧ ApiError.nakedSingularityRN.status = 400
    ∧ (∀ mass angular_momentum : Option ℚ,
        (service_calculate_kerr mass angular_momentum).christoffel_symbols.length
          = 4
        ∧ (service_calculate_kerr mass angular_momentum).is_vacuum_solution
          = true) := by
  refine ⟨?_, ?_, rfl, rfl, fun _ _ => ⟨rfl, rfl⟩⟩
  · intro m r sTheta cTheta a h
    unfold calculate_kerr_endpoint
    rw [if_pos h]
  · intro m r sTheta cTheta q h
    unfold calculate_reissner_nordstrom_endpoint
    rw [if_pos h]

/-- **C4 witness**: the Kerr guard applied at M=1, a=2 (a² > M²). -/
theorem c4_witness :
    calculate_kerr_endpoint 1 10 1 0 2 = .error .nakedSingularityKerr :=
  c4_numeric_guard.1 1 10 1 0 2 (by norm_num)

/-- **C4 counterexample**: the claim fails for the symbolic engine — at the
naked-singularity input mass 1, angular momentum 1.1 (so a² > M²), the
symbolic `calculate_kerr` is not rejected: it computes and returns a full
4×4×4 Christoffel tensor and a normal payload. -/
theorem c4_counterexample :
    ((11/10 : ℚ)^2 > (1 : ℚ)^2)
    ∧ (service_calculate_kerr (some 1) (some (11/10))).christoffel_symbols.length
        = 4
    ∧ (service_calculate_kerr (some 1) (some (11/10))).is_vacuum_solution
        = true :=
  ⟨by norm_num, rfl, rfl⟩

/-- **C1 (code behavior at a valid vacuum input)**: for Schwarzschild at
M=1, r=10 (well outside the horizon r_h=2), θ=π/2 (sin θ = 1, cos θ = 0),
the pipeline returns the Ricci components R₁₁ = 1/400 and R₃₃ = 1/5 and the
Ricci scalar 1/250 — all far above the 1e-10 tolerance, because
`calculate_riemann_tensor` hardcodes only the components (0,1,0,1),
(0,1,1,0), (2,3,2,3), (2,3,3,2), whose first-third-index contraction cannot
cancel.  The claim (all Ricci components and the scalar within 1e-10 of
zero) is violated by the code. -/
theorem c1_schwarzschild_ricci_nonzero :
    (schwPipeline 1 10 1 0).map (fun p => (p.ricci, p.ricciScalar))
      = .ok ([("R_11", 1/400), ("R_33", 1/5)], 1/250)
    ∧ tol < |(1/400 : ℚ)| ∧ tol < |(1/250 : ℚ)| :=
  ⟨by decide, by decide, by decide⟩

/-- **C2 (code behavior at a valid Reissner–Nordström input)**: at M=1,
Q=1/2 (Q² ≤ M²), r=10 (outside r₊ = 1 + √(3)/2), θ=π/2, the pipeline's
Ricci scalar is 1027/640000 ≈ 1.6e-3, far above the 1e-10 tolerance: the
hardcoded Riemann components (0,1,0,1) and (2,3,2,3) contract to the Ricci
entries R₁₁ = R₃₃ = (2Mr−Q²)/r⁴ whose trace with g⁻¹ does not cancel.  The
claim (Ricci scalar within 1e-10 of zero) is violated by the code. -/
theorem c2_rn_ricci_scalar_nonzero :
    (rnPipeline 1 10 1 0 (1/2)).map (fun p => (p.ricci, p.ricciScalar))
      = .ok ([("R_11", 79/40000), ("R_33", 79/40000)], 1027/640000)
    ∧ tol < |(1027/640000 : ℚ)| :=
  ⟨by decide, by decide⟩

/-- **C3 (code vs literal formula)**: at the Schwarzschild input M=1, r=10,
θ=π/2, the source's Christoffel loop yields Γ²₁₂ = 1/10 but Γ²₂₁ = 0,
whereas the literal tensor formula
Γ^μ_{αβ} = ½ g^{μσ}(∂_α g_{βσ} + ∂_β g_{ασ} − ∂_σ g_{αβ}) over the same
inverse metric and derivative matrices gives Γ²₂₁ = 1/10: the boolean
index-matching in the source makes its second and third derivative terms
cancel, so the computed coefficients do not equal the literal formula. -/
theorem c3_christoffel_differs_from_literal :
    schwChristoffelComparison 1 10 1 0 = .ok (1/10, 0, 1/10)
    ∧ ((0 : ℚ) ≠ 1/10) :=
  ⟨by decide, by decide⟩

/-- **C5 (code behavior on Kerr)**: at M=1, a=1/2, r=10, θ=π/2 the Kerr
Riemann dictionary contains R⁰₁₀₁ = 1/10000 (above tolerance) while the
antisymmetric partner R⁰₁₁₀ is never populated (components reconstruct to
1/10000 and 0, and the key `R0_110` is absent), so
R^ρ_{σμν} = −R^ρ_{σνμ} fails for the computed components. -/
theorem c5_kerr_riemann_not_antisymmetric :
    (kerrPipeline 1 10 1 0 (1/2)).map
        (fun p => (parseRieDict p.riemann (0,1,0,1),
                   parseRieDict p.riemann (0,1,1,0),
                   p.riemann.lookup "R0_110"))
      = .ok (1/10000, 0, none)
    ∧ ((1/10000 : ℚ) ≠ -(0 : ℚ)) ∧ tol < |(1/10000 : ℚ)| :=
  ⟨by decide, by decide, by decide⟩

/-- **C6 (code behavior of the numeric engine)**: at the Schwarzschild
input M=1, r=10, θ=π/2 the returned Christoffel mapping contains
Γ²₁₂ = 1/10 but no Γ²₂₁ key at all (i.e. Γ²₂₁ = 0), an asymmetry of 1/10 —
far beyond the 1e-10 sparsification tolerance — so the numeric engine's
Christoffel symbols are not symmetric in the lower two indices. -/
theorem c6_christoffel_not_symmetric :
    (schwPipeline 1 10 1 0).map
        (fun p => (p.christoffel.lookup "Γ2_12", p.christoffel.lookup "Γ2_21"))
      = .ok (some (1/10), none)
    ∧ tol < |(1/10 : ℚ) - 0| :=
  ⟨by decide, by decide⟩
